import Mathlib

/-!
Verification of the proof-of-work blockchain repository
(`src/queue.rs`, `src/block.rs`).

The repository implements a generic work-distribution engine
(`WorkQueue`) backed by an spmc task channel and an mpsc output
channel, and a proof-of-work miner (`Block`) that partitions a numeric
search range into chunks and schedules them on the queue.

The concurrent queue is embedded as a state machine: the state records
the observable contents of the two channels, whether the task sender
is still alive, the `workers` vector of join handles, and the number of
worker threads that have not yet exited.  Operations are functions from
state to (outcome, state); panics of the Rust code are modelled by
explicit `panicked` outcomes carrying the panic message, and a blocking
call that can never be woken is modelled by a `blocked` outcome.
-/

set_option autoImplicit false

namespace PoW

/-- Outcome of `WorkQueue::enqueue` (`src/queue.rs` lines 65-71).
`ok` models `Result::Ok(())`; `err` models `Result::Err(SendError(t))`,
the error value of `spmc::Sender::send`, which can only occur when every
receiver of the channel has been dropped; `panicked` models the
`panic!("Sender is None, when enqueuing.")` branch. -/
inductive EnqueueOutcome (τ : Type) where
  | ok
  | err (t : τ)
  | panicked (msg : String)
  deriving DecidableEq, Repr

/-- Outcome of `WorkQueue::recv` (`src/queue.rs` lines 77-81).
`got` models a received value; `blocked` models the call blocking with
no event that could ever wake it; `err` models returning an explicit
failure value to the caller, which the source's `recv` — whose return
type is the bare `TaskType::Output` — can never do; `panicked` models
the panic raised by `.expect("I have been shutdown incorrectly")`. -/
inductive RecvOutcome (ρ : Type) where
  | got (r : ρ)
  | blocked
  | err
  | panicked (msg : String)
  deriving DecidableEq, Repr

/-- Outcome of `WorkQueue::try_recv` (`src/queue.rs` lines 82-84),
mirroring `mpsc::TryRecvError`: `empty` is `Err(TryRecvError::Empty)`
("nothing available yet"), `disconnected` is
`Err(TryRecvError::Disconnected)` (permanently empty). -/
inductive TryRecvOutcome (ρ : Type) where
  | got (r : ρ)
  | empty
  | disconnected
  deriving DecidableEq, Repr

/-- State of a `WorkQueue<TaskType>` (`src/queue.rs` lines 9-14).
`send_tasks` records whether the `Option<spmc::Sender>` field is
`Some` (`true`) or `None` (`false`); `task_channel` is the list of
work units sitting unclaimed in the spmc channel (FIFO); `output_channel`
is the list of results sitting unconsumed in the mpsc channel (FIFO);
`workers` is the length of the `Vec<JoinHandle>`; `alive_workers` is the
number of worker threads that have not yet exited — the mpsc channel is
disconnected exactly when it reaches zero, because each worker owns one
clone of the output sender and the original is dropped when `new`
returns. -/
structure WorkQueue (τ ρ : Type) where
  send_tasks : Bool
  task_channel : List τ
  output_channel : List ρ
  workers : Nat
  alive_workers : Nat
  deriving DecidableEq, Repr

namespace WorkQueue

variable {τ ρ : Type}

/-- `WorkQueue::new(n_workers)` (`src/queue.rs` lines 18-37): fresh
channels, `n_workers` spawned threads recorded in the handle vector,
sender alive. -/
def new (n_workers : Nat) : WorkQueue τ ρ :=
  { send_tasks := true
    task_channel := []
    output_channel := []
    workers := n_workers
    alive_workers := n_workers }

/-- `WorkQueue::enqueue` (`src/queue.rs` lines 65-71): if the sender is
still present, `send` the task — this succeeds because the queue itself
owns the `recv_tasks` receiver, so the channel always has a live
receiver while the queue exists; if the sender has been destroyed,
`panic!("Sender is None, when enqueuing.")`. -/
def enqueue (q : WorkQueue τ ρ) (t : τ) : EnqueueOutcome τ × WorkQueue τ ρ :=
  if q.send_tasks then
    (EnqueueOutcome.ok, { q with task_channel := q.task_channel ++ [t] })
  else
    (EnqueueOutcome.panicked "Sender is None, when enqueuing.", q)

/-- `WorkQueue::recv` (`src/queue.rs` lines 77-81): `mpsc::Receiver::recv`
returns the next buffered result; with no buffered result it blocks
while any output sender (worker thread) is alive, and returns
`Err(RecvError)` once every sender is gone — which `.expect` turns into
a panic with message `"I have been shutdown incorrectly"`. -/
def recv (q : WorkQueue τ ρ) : RecvOutcome ρ × WorkQueue τ ρ :=
  match q.output_channel with
  | r :: rs => (RecvOutcome.got r, { q with output_channel := rs })
  | [] =>
    if q.alive_workers = 0 then
      (RecvOutcome.panicked "I have been shutdown incorrectly", q)
    else
      (RecvOutcome.blocked, q)

/-- `WorkQueue::try_recv` (`src/queue.rs` lines 82-84): forwards
`mpsc::Receiver::try_recv` — next buffered result, else `Empty` while a
sender is alive, else `Disconnected`. -/
def try_recv (q : WorkQueue τ ρ) : TryRecvOutcome ρ × WorkQueue τ ρ :=
  match q.output_channel with
  | r :: rs => (TryRecvOutcome.got r, { q with output_channel := rs })
  | [] =>
    if q.alive_workers = 0 then
      (TryRecvOutcome.disconnected, q)
    else
      (TryRecvOutcome.empty, q)

/-- One step of a worker thread's loop `WorkQueue::run`
(`src/queue.rs` lines 40-62), parameterised by the task's `run`
function: claim the next task and execute it, sending a `Some` result
to the output channel; with the task channel empty and the sender
destroyed, `recv` on the task channel fails and the thread returns
(exits). With the channel empty but the sender alive the thread blocks
and the state is unchanged. -/
def workerStep (run : τ → Option ρ) (q : WorkQueue τ ρ) : WorkQueue τ ρ :=
  match q.task_channel with
  | t :: ts =>
    match run t with
    | some r => { q with task_channel := ts, output_channel := q.output_channel ++ [r] }
    | none => { q with task_channel := ts }
  | [] =>
    if q.send_tasks then q
    else { q with alive_workers := q.alive_workers - 1 }

/-- `WorkQueue::shutdown` (`src/queue.rs` lines 92-112), translated
statement by statement: `self.send_tasks = None`; then the drain loop
`while let Ok(_) = self.recv_tasks.recv()` which discards every task
still in the (now closed) channel and stops on `Err`; then
`self.workers.drain(0..)` followed by joining each drained handle —
the joins terminate because the closed, drained channel makes every
worker's `recv` fail, and they leave every thread exited. -/
def shutdown (q : WorkQueue τ ρ) : WorkQueue τ ρ :=
  let q1 := { q with send_tasks := false }
  let q2 := { q1 with task_channel := [] }
  let q3 := { q2 with workers := 0, alive_workers := 0 }
  q3

/-- `impl Drop for WorkQueue` (`src/queue.rs` lines 115-123): run the
full shutdown sequence unless the sender is already `None`. -/
def dropQueue (q : WorkQueue τ ρ) : WorkQueue τ ρ :=
  match q.send_tasks with
  | false => q
  | true => q.shutdown

/-- Spec step (1) of shutdown, following the spec's words: "close the
inbound sender so no further units are ever delivered to workers". -/
def specCloseSender (q : WorkQueue τ ρ) : WorkQueue τ ρ :=
  { q with send_tasks := false }

/-- Spec step (2) of shutdown, following the spec's words: "drain and
discard any work units still sitting in the inbound queue that no
worker has yet claimed". -/
def specDrainUnclaimed (q : WorkQueue τ ρ) : WorkQueue τ ρ :=
  { q with task_channel := [] }

/-- Spec step (3) of shutdown, following the spec's words: "join every
worker thread, waiting for in-flight executions to finish". -/
def specJoinWorkers (q : WorkQueue τ ρ) : WorkQueue τ ρ :=
  { q with workers := 0, alive_workers := 0 }

end WorkQueue

/-! ### SHA-256 (the `sha2` crate's function, FIPS 180-4)

`src/block.rs` derives block hashes with `Sha256` from the `sha2`
crate.  The function is reproduced here over `List Nat` byte strings
(every byte `< 256`), with 32-bit words as `Nat` truncated by
`% 2^32`. -/

/-- Truncation to a 32-bit word. -/
def w32 (x : Nat) : Nat := x % 4294967296

/-- 32-bit rotate-right. -/
def rotr32 (x n : Nat) : Nat := w32 ((x <<< (32 - n)) ||| (x >>> n))

/-- Bitwise complement of a 32-bit word. -/
def not32 (x : Nat) : Nat := x ^^^ 4294967295

/-- SHA-256 `Ch(e,f,g)`. -/
def shaCh (e f g : Nat) : Nat := (e &&& f) ^^^ (not32 e &&& g)

/-- SHA-256 `Maj(a,b,c)`. -/
def shaMaj (a b c : Nat) : Nat := (a &&& b) ^^^ (a &&& c) ^^^ (b &&& c)

/-- SHA-256 big sigma 0. -/
def bigSigma0 (x : Nat) : Nat := rotr32 x 2 ^^^ rotr32 x 13 ^^^ rotr32 x 22

/-- SHA-256 big sigma 1. -/
def bigSigma1 (x : Nat) : Nat := rotr32 x 6 ^^^ rotr32 x 11 ^^^ rotr32 x 25

/-- SHA-256 small sigma 0. -/
def smallSigma0 (x : Nat) : Nat := rotr32 x 7 ^^^ rotr32 x 18 ^^^ (x >>> 3)

/-- SHA-256 small sigma 1. -/
def smallSigma1 (x : Nat) : Nat := rotr32 x 17 ^^^ rotr32 x 19 ^^^ (x >>> 10)

/-- The 64 SHA-256 round constants (FIPS 180-4 section 4.2.2: the first
32 bits of the fractional parts of the cube roots of the first 64
primes), written in decimal. -/
def shaK : List Nat :=
  [1116352408, 1899447441, 3049323471, 3921009573, 961987163, 1508970993,
   2453635748, 2870763221, 3624381080, 310598401, 607225278, 1426881987,
   1925078388, 2162078206, 2614888103, 3248222580, 3835390401, 4022224774,
   264347078, 604807628, 770255983, 1249150122, 1555081692, 1996064986,
   2554220882, 2821834349, 2952996808, 3210313671, 3336571891, 3584528711,
   113926993, 338241895, 666307205, 773529912, 1294757372, 1396182291,
   1695183700, 1986661051, 2177026350, 2456956037, 2730485921, 2820302411,
   3259730800, 3345764771, 3516065817, 3600352804, 4094571909, 275423344,
   430227734, 506948616, 659060556, 883997877, 958139571, 1322822218,
   1537002063, 1747873779, 1955562222, 2024104815, 2227730452, 2361852424,
   2428436474, 2756734187, 3204031479, 3329325298]

/-- The SHA-256 initial hash value (FIPS 180-4 section 5.3.3), written
in decimal. -/
def shaH0 : List Nat :=
  [1779033703, 3144134277, 1013904242, 2773480762,
   1359893119, 2600822924, 528734635, 1541459225]

/-- Big-endian 8-byte encoding of a 64-bit length. -/
def beBytes8 (n : Nat) : List Nat :=
  [n >>> 56 % 256, n >>> 48 % 256, n >>> 40 % 256, n >>> 32 % 256,
   n >>> 24 % 256, n >>> 16 % 256, n >>> 8 % 256, n % 256]

/-- SHA-256 padding: append `0x80`, zeros to 56 mod 64, then the
big-endian bit length. -/
def shaPad (msg : List Nat) : List Nat :=
  let zeros := (64 - ((msg.length + 9) % 64)) % 64
  msg ++ [0x80] ++ List.replicate zeros 0 ++ beBytes8 (8 * msg.length)

/-- Group a byte string into big-endian 32-bit words. -/
def bytesToWordsBE (bs : List Nat) : List Nat :=
  (List.range (bs.length / 4)).map fun i =>
    bs.getD (4 * i) 0 * 16777216 + bs.getD (4 * i + 1) 0 * 65536 +
      bs.getD (4 * i + 2) 0 * 256 + bs.getD (4 * i + 3) 0

/-- Extend 16 message-schedule words to 64. -/
def shaSchedule (ws : List Nat) : List Nat :=
  (List.range 48).foldl
    (fun acc _ =>
      let t := acc.length
      acc ++ [w32 (smallSigma1 (acc.getD (t - 2) 0) + acc.getD (t - 7) 0 +
        smallSigma0 (acc.getD (t - 15) 0) + acc.getD (t - 16) 0)])
    ws

/-- One SHA-256 compression round on the eight working variables. -/
def shaRound (st : List Nat) (kw : Nat × Nat) : List Nat :=
  match st with
  | [a, b, c, d, e, f, g, h] =>
    let t1 := w32 (h + bigSigma1 e + shaCh e f g + kw.1 + kw.2)
    let t2 := w32 (bigSigma0 a + shaMaj a b c)
    [w32 (t1 + t2), a, b, c, w32 (d + t1), e, f, g]
  | _ => st

/-- Compress one 64-byte block into the running hash state. -/
def shaCompress (h : List Nat) (block : List Nat) : List Nat :=
  let ws := shaSchedule (bytesToWordsBE block)
  let st := (shaK.zip ws).foldl shaRound h
  (h.zip st).map fun p => w32 (p.1 + p.2)

/-- SHA-256 of a byte string, as 32 bytes. -/
def sha256 (msg : List Nat) : List Nat :=
  let padded := shaPad msg
  let blocks := (List.range (padded.length / 64)).map fun i => (padded.drop (64 * i)).take 64
  let hs := blocks.foldl shaCompress shaH0
  (hs.map fun w => [w >>> 24 % 256, w >>> 16 % 256, w >>> 8 % 256, w % 256]).flatten

/-! ### Text encoding helpers

`Sha256::update` consumes the UTF-8 bytes of the formatted string, and
`format!("\x7b:02x\x7d", self.prev_hash)` hex-encodes the 32 hash bytes
with lowercase digits. -/

/-- UTF-8 encoding of one character. -/
def utf8Char (c : Char) : List Nat :=
  let n := c.toNat
  if n < 128 then [n]
  else if n < 2048 then [192 + n / 64, 128 + n % 64]
  else if n < 65536 then [224 + n / 4096, 128 + (n / 64) % 64, 128 + n % 64]
  else [240 + n / 262144, 128 + (n / 4096) % 64, 128 + (n / 64) % 64, 128 + n % 64]

/-- UTF-8 encoding of a string. -/
def utf8 (s : String) : List Nat := (s.data.map utf8Char).flatten

/-- Lowercase hex digit. -/
def hexDigit (n : Nat) : Char := if n < 10 then Char.ofNat (48 + n) else Char.ofNat (87 + n)

/-- Two-digit lowercase hex encoding of one byte. -/
def byteHex (b : Nat) : String := String.mk [hexDigit (b / 16), hexDigit (b % 16)]

/-- Lowercase hex encoding of a byte string, the `LowerHex` rendering of
a `GenericArray<u8, U32>`. -/
def bytesHex (bs : List Nat) : String := String.join (bs.map byteHex)

/-! ### `Block` (`src/block.rs`) -/

/-- `Block` (`src/block.rs` lines 10-17).  `Hash = GenericArray<u8, U32>`
is a 32-byte string, modelled as `List Nat`. -/
structure Block where
  prev_hash : List Nat
  generation : Nat
  difficulty : Nat
  data : String
  proof : Option Nat
  deriving DecidableEq, Repr

namespace Block

/-- `Block::initial` (`src/block.rs` lines 23-31): all-zero previous
hash, generation 0, empty data, no proof. -/
def initial (difficulty : Nat) : Block :=
  { prev_hash := List.replicate 32 0
    generation := 0
    difficulty := difficulty
    data := ""
    proof := none }

/-- `Block::hash_string_for_proof` (`src/block.rs` lines 52-62): the
string `prev_hash_hex:generation:difficulty:data:proof` with decimal
renderings of the numbers. -/
def hash_string_for_proof (b : Block) (proof : Nat) : String :=
  bytesHex b.prev_hash ++ ":" ++ toString b.generation ++ ":" ++ toString b.difficulty ++
    ":" ++ b.data ++ ":" ++ toString proof

/-- `Block::hash_for_proof` (`src/block.rs` lines 71-75): SHA-256 of the
UTF-8 bytes of `hash_string_for_proof`. -/
def hash_for_proof (b : Block) (proof : Nat) : List Nat :=
  sha256 (utf8 (b.hash_string_for_proof proof))

/-- `Block::hash_string` (`src/block.rs` lines 64-68): unwraps the
proof — the result is `none` exactly when the block is unmined and the
source panics. -/
def hash_string (b : Block) : Option String :=
  match b.proof with
  | none => none
  | some p => some (b.hash_string_for_proof p)

/-- `Block::hash` (`src/block.rs` lines 77-81): unwraps the proof — the
result is `none` exactly when the block is unmined and the source
panics on `self.proof.unwrap()`. -/
def hash (b : Block) : Option (List Nat) :=
  match b.proof with
  | none => none
  | some p => some (b.hash_for_proof p)

/-- `Block::next` (`src/block.rs` lines 39-47): the follower block,
whose `prev_hash` is `previous.hash()` — so construction panics
(`none`) exactly when `previous` is unmined. -/
def next (previous : Block) (data : String) : Option Block :=
  match previous.hash with
  | none => none
  | some h =>
    some { prev_hash := h
           generation := previous.generation + 1
           difficulty := previous.difficulty
           data := data
           proof := none }

/-- `Block::set_proof` (`src/block.rs` lines 83-85). -/
def set_proof (b : Block) (proof : Nat) : Block :=
  { b with proof := some proof }

/-- `Block::hash_satisfies_difficulty` (`src/block.rs` lines 88-112):
the last `difficulty / 8` bytes are zero and the byte before them is
divisible by `2 ^ (difficulty % 8)`.  The indexed loop over
`last_n_bytes..hash.len()` is rendered as `List.drop`. -/
def hash_satisfies_difficulty (difficulty : Nat) (hash : List Nat) : Bool :=
  let n_bytes := difficulty / 8
  let n_bits := difficulty % 8
  let last_n_bytes := hash.length - n_bytes
  let mod_val := 1 <<< n_bits
  (hash.drop last_n_bytes).all (fun b => b == 0) &&
    hash.getD (last_n_bytes - 1) 0 % mod_val == 0

/-- `Block::is_valid_for_proof` (`src/block.rs` lines 114-116). -/
def is_valid_for_proof (b : Block) (proof : Nat) : Bool :=
  hash_satisfies_difficulty b.difficulty (b.hash_for_proof proof)

/-- `Block::is_valid` (`src/block.rs` lines 118-123). -/
def is_valid (b : Block) : Bool :=
  match b.proof with
  | none => false
  | some p => b.is_valid_for_proof p

end Block

/-! ### The range-partitioning driver `Block::mine_range`
(`src/block.rs` lines 136-164) and `MiningTask` (lines 178-199).

The shared `Arc<Block>` is consulted only through
`Block::is_valid_for_proof`, so the driver is stated over an arbitrary
candidate predicate `valid : Nat -> Bool` — exactly the spec's
puzzle-model boundary `evaluate(candidate) -> bool`; `Block.mine_range`
below instantiates `valid` with `Block.is_valid_for_proof`.

The queue's concurrency is resolved by listing the results in task
(submission) order: which of several produced results `recv` sees first
depends on thread scheduling, so the driver's return value is only
schedule-independent when at most one task produces a result. -/

/-- The two arithmetic panics `mine_range` can raise while computing
`(end - start) / chunks` (`src/block.rs` line 144): checked `u64`
subtraction overflow when `end < start`, and division by zero when
`chunks == 0`.  Rust evaluates the subtraction first. -/
inductive MinePanic where
  | subtractOverflow
  | divideByZero
  deriving DecidableEq, Repr

/-- `MiningTask` (`src/block.rs` lines 178-182).  The `block` field is
represented by the predicate it is consulted through; `stop` renders
the source field `end`, a Lean keyword. -/
structure MiningTask where
  valid : Nat → Bool
  start : Nat
  stop : Nat

/-- `MiningTask::run` (`src/block.rs` lines 187-198): return the first
candidate in `[start, end)` satisfying the predicate, else `None`.
`List.range' t.start (t.stop - t.start)` is the ascending enumeration
of `start..end`. -/
def MiningTask.run (t : MiningTask) : Option Nat :=
  (List.range' t.start (t.stop - t.start)).find? t.valid

/-- The `chunks` work units `mine_range` enqueues (`src/block.rs` lines
144-159).  `range := (end - start) / chunks`; the loop starts at
`start_point = 0` (not at `start`) and advances both bounds by `range`
each iteration, so the `i`-th task covers
`[i * range, i * range + range)`. -/
def mineRangeTasks (valid : Nat → Bool) (start e chunks : Nat) :
    Except MinePanic (List MiningTask) :=
  if e < start then Except.error MinePanic.subtractOverflow
  else if chunks = 0 then Except.error MinePanic.divideByZero
  else
    let range := (e - start) / chunks
    Except.ok ((List.range chunks).map fun i =>
      { valid := valid, start := i * range, stop := i * range + range })

/-- Every result any worker ever sends on the output channel during a
`mine_range` call, listed in task order: task `i` contributes the value
of `MiningTask::run` when it is `Some`. -/
def mineRangeOutputs (valid : Nat → Bool) (workers start e chunks : Nat) :
    Except MinePanic (List Nat) :=
  (mineRangeTasks valid start e chunks).map fun ts => ts.filterMap MiningTask.run

/-- `Block::mine_range` stated over the candidate predicate: enqueue the
chunk tasks, then `work_queue.recv()` (`src/block.rs` line 161).  The
returned `Option` is the first output under the task-order schedule;
`none` models `recv` blocking forever: no task produced a result, so no
worker ever sends, and with `shutdown` not yet reached the workers
stay blocked on the open task channel — the call never returns.
`workers` only sets the thread-pool size and cannot affect which
results exist. -/
def mineRange (valid : Nat → Bool) (workers start e chunks : Nat) :
    Except MinePanic (Option Nat) :=
  (mineRangeOutputs valid workers start e chunks).map List.head?

/-- `Block::mine_range` (`src/block.rs` lines 136-164) proper: the
driver applied to the block's own validity predicate. -/
def Block.mine_range (b : Block) (workers start e chunks : Nat) :
    Except MinePanic (Option Nat) :=
  mineRange (b.is_valid_for_proof) workers start e chunks

/-- `Block::mine_for_proof` (`src/block.rs` lines 166-171). -/
def Block.mine_for_proof (b : Block) (workers : Nat) : Except MinePanic (Option Nat) :=
  b.mine_range workers 0 (8 * (1 <<< b.difficulty)) 2345

/-! ### Validation against the repository's own test vectors
(`src/block_tests.rs`). -/

/-- The model reproduces the test vector `hash_string_for_proof_basic_0`. -/
theorem hash_string_for_proof_vector :
    Block.hash_string_for_proof
      { prev_hash := List.replicate 32 10, generation := 3, difficulty := 13,
        data := "Cool Data", proof := none } 4321
      = "0a0a0a0a0a0a0a0a0a0a0a0a0a0a0a0a0a0a0a0a0a0a0a0a0a0a0a0a0a0a0a0a:3:13:Cool Data:4321" := by
  rfl

set_option maxRecDepth 8000 in
/-- The model's SHA-256 reproduces the test vector `hash_for_proof_basic_0`. -/
theorem hash_for_proof_vector :
    Block.hash_for_proof
      { prev_hash := List.replicate 32 10, generation := 3, difficulty := 13,
        data := "Cool Data", proof := none } 4321
      = [99, 66, 200, 198, 96, 57, 238, 158, 136, 127, 33, 80, 24, 122, 108, 205,
         44, 40, 7, 58, 131, 224, 179, 144, 96, 228, 207, 83, 74, 179, 142, 115] := by
  rfl

/-- The model reproduces the test vectors `hash_satisfies_difficulty_0/1/2`. -/
theorem hash_satisfies_difficulty_vectors :
    Block.hash_satisfies_difficulty 8
      [99, 66, 200, 198, 96, 57, 238, 158, 136, 127, 33, 80, 24, 122, 108, 205,
       44, 40, 7, 58, 131, 224, 179, 144, 96, 228, 207, 83, 74, 179, 142, 0] = true
    ∧ Block.hash_satisfies_difficulty 9
      [99, 66, 200, 198, 96, 57, 238, 158, 136, 127, 33, 80, 24, 122, 108, 205,
       44, 40, 7, 58, 131, 224, 179, 144, 96, 228, 207, 83, 74, 179, 142, 0] = true
    ∧ Block.hash_satisfies_difficulty 10
      [99, 66, 200, 198, 96, 57, 238, 158, 136, 127, 33, 80, 24, 122, 108, 205,
       44, 40, 7, 58, 131, 224, 179, 144, 96, 228, 207, 83, 74, 179, 142, 0] = false := by
  exact ⟨rfl, rfl, rfl⟩

/-! ### C1 — enqueue after/before shutdown -/

/-- C1 counterexample: on the engine `new 1` after a completed
`shutdown`, `enqueue` does not report an error value — it panics with
`"Sender is None, when enqueuing."`, refuting "fails by reporting an
error and does not panic". -/
theorem enqueue_after_shutdown_no_error_result :
    (WorkQueue.enqueue (WorkQueue.shutdown (WorkQueue.new 1 : WorkQueue Unit Nat)) ()).fst
      = EnqueueOutcome.panicked "Sender is None, when enqueuing."
    ∧ (WorkQueue.enqueue (WorkQueue.shutdown (WorkQueue.new 1 : WorkQueue Unit Nat)) ()).fst
      ≠ EnqueueOutcome.err () := by
  exact ⟨rfl, by decide⟩

/-- C1 (amended): after a completed `shutdown`, `enqueue` panics with
`"Sender is None, when enqueuing."` (rather than returning an error
value) and leaves the state unchanged; on an engine whose sender is
still alive — every engine on which `shutdown` has not been called —
`enqueue` never fails: it returns `Ok(())` and appends the unit to the
task channel. -/
theorem enqueue_after_shutdown_panics {τ ρ : Type} (q : WorkQueue τ ρ) (t : τ) :
    WorkQueue.enqueue (WorkQueue.shutdown q) t
      = (EnqueueOutcome.panicked "Sender is None, when enqueuing.", WorkQueue.shutdown q)
    ∧ (q.send_tasks = true →
        WorkQueue.enqueue q t
          = (EnqueueOutcome.ok, { q with task_channel := q.task_channel ++ [t] })) := by
  constructor
  · simp [WorkQueue.enqueue, WorkQueue.shutdown]
  · intro h
    simp [WorkQueue.enqueue, h]

/-- C1 witness: the amended theorem applied to the fresh engine
`new 3`, whose sender is alive. -/
theorem enqueue_after_shutdown_panics_witness :
    WorkQueue.enqueue (WorkQueue.new 3 : WorkQueue Unit Nat) ()
      = (EnqueueOutcome.ok,
         { send_tasks := true, task_channel := [()], output_channel := [],
           workers := 3, alive_workers := 3 }) :=
  (enqueue_after_shutdown_panics (WorkQueue.new 3) ()).2 rfl

/-! ### C3 — recv on a permanently empty engine -/

/-- C3 counterexample: on the engine `new 1` after `shutdown` (all
workers exited, no result pending), `recv` does not return an explicit
failure value — it panics with `"I have been shutdown incorrectly"`. -/
theorem recv_permanently_empty_no_error_result :
    (WorkQueue.recv (WorkQueue.shutdown (WorkQueue.new 1 : WorkQueue Unit Nat))).fst
      = RecvOutcome.panicked "I have been shutdown incorrectly"
    ∧ (WorkQueue.recv (WorkQueue.shutdown (WorkQueue.new 1 : WorkQueue Unit Nat))).fst
      ≠ RecvOutcome.err := by
  exact ⟨rfl, by decide⟩

/-- C3 (amended): when every worker has exited and no result is
pending, `recv` panics with the distinct message
`"I have been shutdown incorrectly"` — never a silent no-op and never
an indefinite hang — but the failure is a panic raised by `.expect`,
not an explicit failure result returned to the caller. -/
theorem recv_permanently_empty_panics {τ ρ : Type} (q : WorkQueue τ ρ)
    (hw : q.alive_workers = 0) (hr : q.output_channel = []) :
    WorkQueue.recv q = (RecvOutcome.panicked "I have been shutdown incorrectly", q) := by
  simp [WorkQueue.recv, hr, hw]

/-- C3 witness: the amended theorem applied to `new 1` after
`shutdown`. -/
theorem recv_permanently_empty_panics_witness :
    WorkQueue.recv (WorkQueue.shutdown (WorkQueue.new 1 : WorkQueue Unit Nat))
      = (RecvOutcome.panicked "I have been shutdown incorrectly",
         WorkQueue.shutdown (WorkQueue.new 1)) :=
  recv_permanently_empty_panics _ rfl rfl

/-! ### C5 — the shutdown sequence -/

/-- C5: `shutdown` performs exactly the three spec steps in order —
close the inbound sender, drain every unclaimed work unit, join every
worker thread — and the outbound channel is untouched: results already
produced but not yet consumed remain retrievable by `recv` after
`shutdown` returns. -/
theorem shutdown_steps_in_order {τ ρ : Type} (q : WorkQueue τ ρ) :
    WorkQueue.shutdown q
      = WorkQueue.specJoinWorkers (WorkQueue.specDrainUnclaimed (WorkQueue.specCloseSender q))
    ∧ (WorkQueue.shutdown q).send_tasks = false
    ∧ (WorkQueue.shutdown q).task_channel = []
    ∧ (WorkQueue.shutdown q).workers = 0
    ∧ (WorkQueue.shutdown q).output_channel = q.output_channel
    ∧ (∀ r rs, q.output_channel = r :: rs →
        WorkQueue.recv (WorkQueue.shutdown q)
          = (RecvOutcome.got r, { WorkQueue.shutdown q with output_channel := rs })) := by
  refine ⟨rfl, rfl, rfl, rfl, rfl, ?_⟩
  intro r rs h
  simp [WorkQueue.recv, WorkQueue.shutdown, h]

/-- C5 witness: on an engine with a pending unconsumed result `7`,
`shutdown` leaves `7` retrievable by `recv`. -/
theorem shutdown_steps_in_order_witness :
    WorkQueue.recv (WorkQueue.shutdown
        ({ send_tasks := true, task_channel := [()], output_channel := [7],
           workers := 2, alive_workers := 2 } : WorkQueue Unit Nat))
      = (RecvOutcome.got 7,
         { WorkQueue.shutdown
             ({ send_tasks := true, task_channel := [()], output_channel := [7],
                workers := 2, alive_workers := 2 } : WorkQueue Unit Nat)
           with output_channel := [] }) :=
  (shutdown_steps_in_order _).2.2.2.2.2 7 [] rfl

/-! ### C6 — idempotence of shutdown and the worker-handle count -/

/-- C6: `shutdown` is idempotent — a second call leaves the engine in
exactly the state the first call produced — and the number of live
worker handles equals the pool size at construction, is preserved by
`enqueue`, `recv`, `try_recv` and worker steps, and is zero after a
completed `shutdown`. -/
theorem shutdown_idempotent_and_handles {τ ρ : Type} (q : WorkQueue τ ρ) (n : Nat) (t : τ)
    (run : τ → Option ρ) :
    WorkQueue.shutdown (WorkQueue.shutdown q) = WorkQueue.shutdown q
    ∧ (WorkQueue.new n : WorkQueue τ ρ).workers = n
    ∧ (WorkQueue.enqueue q t).snd.workers = q.workers
    ∧ (WorkQueue.recv q).snd.workers = q.workers
    ∧ (WorkQueue.try_recv q).snd.workers = q.workers
    ∧ (WorkQueue.workerStep run q).workers = q.workers
    ∧ (WorkQueue.shutdown q).workers = 0 := by
  refine ⟨rfl, rfl, ?_, ?_, ?_, ?_, rfl⟩
  · unfold WorkQueue.enqueue
    split <;> rfl
  · unfold WorkQueue.recv
    rcases q.output_channel with _ | ⟨r, rs⟩ <;> simp <;> split <;> rfl
  · unfold WorkQueue.try_recv
    rcases q.output_channel with _ | ⟨r, rs⟩ <;> simp <;> split <;> rfl
  · unfold WorkQueue.workerStep
    rcases q.task_channel with _ | ⟨a, ts⟩
    · simp only []
      split <;> rfl
    · simp only []
      split <;> rfl

/-! ### C7 — implicit shutdown on drop -/

/-- C7: dropping the engine without an explicit `shutdown` call (sender
still alive) runs exactly the shutdown sequence; dropping an engine on
which `shutdown` already completed performs no further work. -/
theorem drop_runs_shutdown_once {τ ρ : Type} (q : WorkQueue τ ρ) :
    (q.send_tasks = true → WorkQueue.dropQueue q = WorkQueue.shutdown q)
    ∧ WorkQueue.dropQueue (WorkQueue.shutdown q) = WorkQueue.shutdown q
    ∧ (q.send_tasks = false → WorkQueue.dropQueue q = q) := by
  refine ⟨?_, rfl, ?_⟩
  · intro h
    simp [WorkQueue.dropQueue, h]
  · intro h
    simp [WorkQueue.dropQueue, h]

/-- C7 witness: the theorem applied to the fresh engine `new 2`. -/
theorem drop_runs_shutdown_once_witness :
    WorkQueue.dropQueue (WorkQueue.new 2 : WorkQueue Unit Nat)
      = WorkQueue.shutdown (WorkQueue.new 2) :=
  (drop_runs_shutdown_once _).1 rfl

/-! ### C8 — try_recv immediately after construction -/

/-- C8: immediately after construction with a positive pool size and no
units enqueued, `try_recv` reports the transient `Empty` outcome —
never a result — and that outcome is distinguishable from the
permanent `Disconnected` outcome. -/
theorem try_recv_after_new_empty {τ ρ : Type} (n : Nat) (hn : 1 ≤ n) :
    WorkQueue.try_recv (WorkQueue.new n : WorkQueue τ ρ)
      = (TryRecvOutcome.empty, WorkQueue.new n)
    ∧ (∀ r : ρ, (WorkQueue.try_recv (WorkQueue.new n : WorkQueue τ ρ)).fst
         ≠ TryRecvOutcome.got r)
    ∧ (TryRecvOutcome.empty : TryRecvOutcome ρ) ≠ TryRecvOutcome.disconnected := by
  have hn0 : n ≠ 0 := Nat.one_le_iff_ne_zero.mp hn
  refine ⟨?_, ?_, by simp⟩
  · simp [WorkQueue.try_recv, WorkQueue.new, hn0]
  · intro r
    simp [WorkQueue.try_recv, WorkQueue.new, hn0]

/-- C8 witness: the theorem applied at pool size 2. -/
theorem try_recv_after_new_empty_witness :
    (1 : Nat) ≤ 2
    ∧ WorkQueue.try_recv (WorkQueue.new 2 : WorkQueue Unit Nat)
        = (TryRecvOutcome.empty, WorkQueue.new 2) :=
  ⟨by decide, (try_recv_after_new_empty 2 (by decide)).1⟩

/-! ### C9 — the unstated precondition of `Block::next` -/

/-- C9: `Block::next(previous, data)` panics exactly when
`previous.proof` is `None` (the hash of `previous` unwraps the proof);
when `previous.proof = Some p` the follower block carries the hash of
`previous` as `prev_hash`, generation one higher, the same difficulty,
the given data, and no proof. -/
theorem next_panics_iff_unmined (previous : Block) (data : String) :
    (previous.proof = none → Block.next previous data = none)
    ∧ (∀ p, previous.proof = some p →
        Block.hash previous = some (previous.hash_for_proof p)
        ∧ Block.next previous data
            = some { prev_hash := previous.hash_for_proof p
                     generation := previous.generation + 1
                     difficulty := previous.difficulty
                     data := data
                     proof := none }) := by
  constructor
  · intro h
    simp [Block.next, Block.hash, h]
  · intro p hp
    constructor
    · simp [Block.hash, hp]
    · simp [Block.next, Block.hash, hp]

/-- C9 witness: the theorem applied to the unmined `initial 13` block
and to the mined block of the repository's `next_basic_0` test. -/
theorem next_panics_iff_unmined_witness :
    Block.next (Block.initial 13) "d" = none
    ∧ Block.next
        { prev_hash := List.replicate 32 10, generation := 3, difficulty := 13,
          data := "Cool Data", proof := some 102020 } "Cooler data"
      = some { prev_hash :=
                 Block.hash_for_proof
                   { prev_hash := List.replicate 32 10, generation := 3, difficulty := 13,
                     data := "Cool Data", proof := some 102020 } 102020
               generation := 4
               difficulty := 13
               data := "Cooler data"
               proof := none } :=
  ⟨(next_panics_iff_unmined (Block.initial 13) "d").1 rfl,
   ((next_panics_iff_unmined
       { prev_hash := List.replicate 32 10, generation := 3, difficulty := 13,
         data := "Cool Data", proof := some 102020 } "Cooler data").2 102020 rfl).2⟩

/-! ### C2 — the scheduled partitions ignore `start` -/

/-- C2: evaluating the scheduler at the failing input
`mine_range(workers := 1, start := 10, end := 110, chunks := 2)`: the
two scheduled tasks cover `[0, 50)` and `[50, 100)`.  The first
sub-range begins at `0`, not at `start = 10`, because the loop in
`src/block.rs` initialises `start_point` to `0` — contradicting both
the claim and the function's own comment that it checks "proof values
in the given range". -/
theorem mine_range_tasks_ignore_start :
    (mineRangeTasks (fun _ => false) 10 110 2).map (List.map fun t => (t.start, t.stop))
      = Except.ok [(0, 50), (50, 100)]
    ∧ ((10 : Nat), (60 : Nat)) ≠ ((0 : Nat), (50 : Nat)) := by
  exact ⟨rfl, by decide⟩

/-! ### C10 — the unstated arithmetic preconditions of `mine_range` -/

/-- C10: under Rust's checked (debug) integer semantics,
`Block::mine_range` panics with an unsigned-subtraction overflow when
`end < start` (the subtraction `end - start` is evaluated first) and
with a division by zero when `chunks = 0`; when `start ≤ end` and
`chunks ≥ 1` it reaches the task loop and returns normally, so the
panic is never an error result. -/
theorem mine_range_panics_on_bad_args (b : Block) (workers start e chunks : Nat) :
    (e < start →
      b.mine_range workers start e chunks = Except.error MinePanic.subtractOverflow)
    ∧ (start ≤ e → chunks = 0 →
      b.mine_range workers start e chunks = Except.error MinePanic.divideByZero)
    ∧ (start ≤ e → 0 < chunks →
      ∃ out, b.mine_range workers start e chunks = Except.ok out) := by
  refine ⟨?_, ?_, ?_⟩
  · intro h
    simp [Block.mine_range, mineRange, mineRangeOutputs, mineRangeTasks, h, Except.map]
  · intro h1 h2
    simp [Block.mine_range, mineRange, mineRangeOutputs, mineRangeTasks,
      Nat.not_lt.mpr h1, h2, Except.map]
  · intro h1 h2
    simp only [Block.mine_range, mineRange, mineRangeOutputs, mineRangeTasks,
      if_neg (Nat.not_lt.mpr h1), if_neg (Nat.pos_iff_ne_zero.mp h2), Except.map]
    exact ⟨_, rfl⟩

/-- C10 witness: the theorem applied at `end < start` and at
`chunks = 0`. -/
theorem mine_range_panics_on_bad_args_witness :
    Block.mine_range (Block.initial 5) 1 3 2 1 = Except.error MinePanic.subtractOverflow
    ∧ Block.mine_range (Block.initial 5) 1 0 4 0 = Except.error MinePanic.divideByZero :=
  ⟨(mine_range_panics_on_bad_args (Block.initial 5) 1 3 2 1).1 (by decide),
   (mine_range_panics_on_bad_args (Block.initial 5) 1 0 4 0).2.1 (by decide) rfl⟩

/-! ### C4 — mine_range with a unique satisfying candidate -/

/-- The puzzle predicate with `99` as its unique satisfying candidate,
used to exercise the truncation boundary of the partitioning policy. -/
def uniqueAt99 : Nat → Bool := fun n => n == 99

/-- C4 counterexample: with the puzzle whose unique satisfying
candidate in `[0, 100)` is `99` and partition count `3`, `mine_range`
does not return `99` — no scheduled task covers `99` (the truncation
policy discards `[99, 100)`), so no worker ever sends a result and the
driver's `recv` blocks forever (`Except.ok none`). -/
theorem mine_range_unique_candidate_refuted :
    (List.range 100).filter uniqueAt99 = [99]
    ∧ mineRange uniqueAt99 1 0 100 3 = Except.ok none
    ∧ mineRange uniqueAt99 1 0 100 3 ≠ Except.ok (some 99) := by
  refine ⟨by decide, rfl, ?_⟩
  intro h
  rw [show mineRange uniqueAt99 1 0 100 3 = Except.ok none from rfl] at h
  simp at h

/-- C4 (amended): for every puzzle predicate, worker count and
partition count, if the range the driver actually schedules —
`[0, chunks * floor((end - start) / chunks))` — contains exactly one
satisfying candidate `c`, then `mine_range` returns `c`. -/
theorem mine_range_unique_scheduled_candidate (valid : Nat → Bool)
    (workers start e chunks c : Nat)
    (hc : valid c = true)
    (hlt : c < chunks * ((e - start) / chunks))
    (huniq : ∀ x, x < chunks * ((e - start) / chunks) → valid x = true → x = c) :
    mineRange valid workers start e chunks = Except.ok (some c) := by
  have hch : chunks ≠ 0 := by
    intro h
    rw [h] at hlt
    exact absurd hlt (by simp)
  have hwpos : 0 < (e - start) / chunks := by
    rcases Nat.eq_zero_or_pos ((e - start) / chunks) with h | h
    · rw [h] at hlt
      exact absurd hlt (by simp)
    · exact h
  have hes : ¬ e < start := by
    intro h
    have h0 : e - start = 0 := Nat.sub_eq_zero_of_le (Nat.le_of_lt h)
    rw [h0] at hwpos
    simp at hwpos
  set w := (e - start) / chunks with hw
  have hL : mineRange valid workers start e chunks
      = Except.ok ((((List.range chunks).map fun i =>
          ({ valid := valid, start := i * w, stop := i * w + w } : MiningTask)).filterMap
            MiningTask.run).head?) := by
    simp [mineRange, mineRangeOutputs, mineRangeTasks, hes, hch, Except.map, hw]
  set L := ((List.range chunks).map fun i =>
      ({ valid := valid, start := i * w, stop := i * w + w } : MiningTask)).filterMap
        MiningTask.run with hLdef
  have hall : ∀ x ∈ L, x = c := by
    intro x hx
    rw [hLdef, List.mem_filterMap] at hx
    obtain ⟨t, ht, hrun⟩ := hx
    rw [List.mem_map] at ht
    obtain ⟨i, hi, rfl⟩ := ht
    rw [List.mem_range] at hi
    unfold MiningTask.run at hrun
    rw [show i * w + w - i * w = w by omega] at hrun
    have hvx : valid x = true := List.find?_some hrun
    have hmem : x ∈ List.range' (i * w) w := List.mem_of_find?_eq_some hrun
    rw [List.mem_range'_1] at hmem
    have hxlt : x < chunks * w := by
      have h1 : x < i * w + w := hmem.2
      have h2 : (i + 1) * w ≤ chunks * w := Nat.mul_le_mul_right w (by omega)
      have h3 : (i + 1) * w = i * w + w := by ring
      omega
    exact huniq x hxlt hvx
  have hne : L ≠ [] := by
    have hi0 : c / w < chunks := (Nat.div_lt_iff_lt_mul hwpos).mpr (by omega)
    have hlo : c / w * w ≤ c := Nat.div_mul_le_self c w
    have hhi : c < c / w * w + w := by
      have hmod := Nat.div_add_mod c w
      have hrem := Nat.mod_lt c hwpos
      have hcomm : w * (c / w) = c / w * w := Nat.mul_comm _ _
      omega
    have hcmem : c ∈ List.range' (c / w * w) w := by
      rw [List.mem_range'_1]
      exact ⟨hlo, by omega⟩
    have hfind : ((List.range' (c / w * w) w).find? valid).isSome := by
      rw [List.find?_isSome]
      exact ⟨c, hcmem, hc⟩
    obtain ⟨y, hy⟩ := Option.isSome_iff_exists.mp hfind
    have hyL : y ∈ L := by
      rw [hLdef, List.mem_filterMap]
      refine ⟨{ valid := valid, start := c / w * w, stop := c / w * w + w }, ?_, ?_⟩
      · rw [List.mem_map]
        exact ⟨c / w, List.mem_range.mpr hi0, rfl⟩
      · unfold MiningTask.run
        rw [show c / w * w + w - c / w * w = w by omega]
        exact hy
    intro hnil
    rw [hnil] at hyL
    exact absurd hyL (List.not_mem_nil y)
  obtain ⟨a, l, hal⟩ := List.exists_cons_of_ne_nil hne
  have ha : a = c := hall a (by rw [hal]; exact List.mem_cons_self a l)
  rw [hL, hal, ha]
  rfl

/-- C4 witness: the amended theorem applied to the unique-candidate
puzzle on `[0, 100)` with 5 partitions (which schedule all of
`[0, 100)`) and 4 workers. -/
theorem mine_range_unique_scheduled_candidate_witness :
    uniqueAt99 99 = true
    ∧ 99 < 5 * ((100 - 0) / 5)
    ∧ mineRange uniqueAt99 4 0 100 5 = Except.ok (some 99) :=
  ⟨by decide, by decide,
   mine_range_unique_scheduled_candidate uniqueAt99 4 0 100 5 99 (by decide) (by decide)
     (by decide)⟩

end PoW
